import Mathlib

/-!
Verification of the validation-workflow and notification subsystem of the
Pv_App repository (`src/core`): the data model (`models.py`), the
validation views (`views.py`), the notification dispatcher (`signals.py`)
and the WebSocket consumer (`consumers.py`) are shallowly embedded below,
and the behavioural claims about them are settled as theorems.

Timestamps are modelled as natural numbers; formatted date strings (the
output of Python strftime, an external library call) are carried as opaque
`String` inputs.  Database rows are Lean structures, tables are lists, and
each Django query used by the embedded code is translated at its call
site.
-/

namespace PvApp

/-- `core/models.py`, `class User`: custom user with a role
("admin" / "user" / "validator") and an account-validation flag. -/
structure User where
  id : Nat
  username : String
  role : String
  is_validated : Bool
  deriving DecidableEq

/-- `core/models.py`, `class Service`: a 24-hour service period; only the
fields read by the embedded views are kept (`statut` is "ouvert" or
"fermé", `date_fermeture` the closing timestamp). -/
structure Service where
  statut : String
  date_fermeture : Nat
  deriving DecidableEq

/-- `core/models.py`, `class Action`: one logged entry.  `date_creation_fmt`
is the strftime-formatted creation timestamp used in messages. -/
structure Action where
  id : Nat
  auteur : User
  service : Service
  description : String
  date_creation_fmt : String
  deriving DecidableEq

/-- `core/models.py`, `class Validation`: one immutable ledger entry of the
approval workflow.  `statut` is "en_attente", "validé" or "refusé";
`commentaire` is a nullable text field. -/
structure Validation where
  id : Nat
  action : Action
  validateur : User
  statut : String
  commentaire : Option String
  date_validation : Nat
  deriving DecidableEq

/-- `core/models.py`, `class Notification`: a durable per-recipient record.
The recipient is kept by id (the foreign key); `lue` is the read flag,
false on creation. -/
structure Notification where
  destinataire : Nat
  type : String
  message : String
  lue : Bool
  actionId : Option Nat
  validationId : Option Nat
  deriving DecidableEq

/-- Python truthiness of a nullable text field: `None` and the empty string
are falsy, every other string is truthy. -/
def pyTruthy : Option String → Bool
  | none => false
  | some s => s != ""

/-- `core/models.py`, `Validation.clean`: a rejection requires a truthy
comment, and the validator must have the admin role; checks are performed
in source order and the first failure raises. -/
def Validation.clean (v : Validation) : Except String Unit :=
  if v.statut == "refusé" && !(pyTruthy v.commentaire) then
    Except.error "Un commentaire est obligatoire pour refuser une action."
  else if v.validateur.role != "admin" then
    Except.error "Seuls les administrateurs peuvent valider des actions."
  else
    Except.ok ()

/-- Python `str.strip()` with no argument: the string with leading and
trailing whitespace removed, modelled over the character list. -/
def pyStrip (s : String) : String :=
  String.mk ((((s.toList).dropWhile Char.isWhitespace).reverse.dropWhile
    Char.isWhitespace).reverse)

/-- `core/models.py`, `Validation.can_validate`: only the admin role may
validate. -/
def Validation.can_validate (u : User) : Bool :=
  u.role == "admin"

/-- The ledger rows belonging to one action (`self.validations`, the
reverse foreign-key manager of `Action`). -/
def actionValidations (vs : List Validation) (a : Action) : List Validation :=
  vs.filter (fun v => v.action.id == a.id)

/-- `Action.latest_validation` executes
`self.validations.order_by('-date_validation').first()`.  That query
orders by `date_validation` alone; rows sharing the maximal timestamp are
left in an order the ORM and SQL semantics do not specify (the model
declares no secondary ordering key), so `first()` may return any entry of
maximal `date_validation`.  `AdmissibleLatest l v` says `v` is one of the
possible results on a non-empty ledger `l`. -/
def AdmissibleLatest (l : List Validation) (v : Validation) : Prop :=
  v ∈ l ∧ ∀ w ∈ l, w.date_validation ≤ v.date_validation

instance (l : List Validation) (v : Validation) : Decidable (AdmissibleLatest l v) :=
  inferInstanceAs (Decidable (v ∈ l ∧ ∀ w ∈ l, w.date_validation ≤ v.date_validation))

/-- The possible results of the `latest_validation` query on ledger `l`:
`none` exactly when the ledger is empty, otherwise any entry of maximal
`date_validation` (see `AdmissibleLatest`). -/
def QueryFirst (l : List Validation) : Option Validation → Prop
  | none => l = []
  | some v => AdmissibleLatest l v

instance (l : List Validation) : (o : Option Validation) → Decidable (QueryFirst l o)
  | none => inferInstanceAs (Decidable (l = []))
  | some v => inferInstanceAs (Decidable (AdmissibleLatest l v))

/-- `Action.validation_status`: the `statut` of the latest ledger entry,
or "en_attente" when the query returned `None`. -/
def validation_status_of : Option Validation → String
  | some v => v.statut
  | none => "en_attente"

/-- `Action.can_be_edited` (`core/models.py`): true when the derived
validation status is "en_attente" or "refusé". -/
def can_be_edited (latest : Option Validation) : Bool :=
  validation_status_of latest == "en_attente" || validation_status_of latest == "refusé"

/-- The later of two ledger entries in the order demanded by the spec:
by creation timestamp, ties broken by ascending id.  This definition
follows the words of the spec (its tie-break rule), to be compared with
the query model taken from the source. -/
def laterOf (a b : Validation) : Validation :=
  if b.date_validation > a.date_validation ∨
      (b.date_validation = a.date_validation ∧ b.id > a.id) then b else a

/-- The ledger entry with the latest (creation timestamp, id) pair, as the
words of the spec define it; `none` on an empty ledger.  This is the
spec-side definition for the refinement comparison of claim C1. -/
def specLatest : List Validation → Option Validation
  | [] => none
  | v :: vs =>
    match specLatest vs with
    | none => some v
    | some w => some (laterOf v w)

/-- `core/signals.py`: the "Commentaire" block appended to a message when
the ledger entry carries a truthy comment (`message += "\n\nCommentaire : ..."`),
and the empty string otherwise. -/
def commentBlock : Option String → String
  | none => ""
  | some c => if c == "" then "" else "\n\nCommentaire : " ++ c

/-- `core/signals.py`, `create_validation_notification`: the notification
type derived from the outcome of the ledger entry. -/
def notifTypeFor (statut : String) : String :=
  if statut == "validé" then "validation"
  else if statut == "refusé" then "refus"
  else "commentaire"

/-- `core/signals.py`, `create_validation_notification`: the message text
composed for the author of the action.  The "validé" branch composes its
sentence and appends nothing; the "refusé" and default ("en_attente")
branches append the comment block when the comment is truthy. -/
def composeValidationMessage (v : Validation) : String :=
  if v.statut == "validé" then
    "Votre action du " ++ v.action.date_creation_fmt ++ " a été validée par "
      ++ v.validateur.username ++ "."
  else if v.statut == "refusé" then
    "Votre action du " ++ v.action.date_creation_fmt ++ " a été refusée par "
      ++ v.validateur.username ++ "." ++ commentBlock v.commentaire
  else
    v.validateur.username ++ " a commenté votre action du "
      ++ v.action.date_creation_fmt ++ "." ++ commentBlock v.commentaire

/-- `core/signals.py`, `create_validation_notification` (post_save receiver
on `Validation`, `created=True` path): skips entirely when the validator is
the author of the action, otherwise persists one Notification for the
author (read flag false, linked to the action and to the ledger entry).
Returns the updated notification table. -/
def create_validation_notification (v : Validation) (notifs : List Notification) :
    List Notification :=
  if v.validateur.id == v.action.auteur.id then notifs
  else
    notifs ++ [{ destinataire := v.action.auteur.id,
                 type := notifTypeFor v.statut,
                 message := composeValidationMessage v,
                 lue := false,
                 actionId := some v.action.id,
                 validationId := some v.id }]

/-- `core/views.py`, `get_unread_count`: the JSON endpoint counts the
Notifications of the requesting user whose read flag is false
(`filter(destinataire=request.user, lue=False).count()`). -/
def views_get_unread_count (notifs : List Notification) (userId : Nat) : Nat :=
  (notifs.filter (fun n => n.destinataire == userId && n.lue == false)).length

/-- `core/consumers.py`, `NotificationConsumer.get_unread_count`: the count
recomputed from durable storage on connect and on request. -/
def consumer_get_unread_count (notifs : List Notification) (userId : Nat) : Nat :=
  (notifs.filter (fun n => n.destinataire == userId && n.lue == false)).length

/-- `core/signals.py`: the unread count the dispatcher computes
(`Notification.objects.filter(destinataire=..., lue=False).count()`) right
after persisting a notification, attached to the WebSocket push. -/
def signals_unread_count (notifs : List Notification) (userId : Nat) : Nat :=
  (notifs.filter (fun n => n.destinataire == userId && n.lue == false)).length

/-- The number of Notifications of a user whose read flag (`lue`) is
false, stated the way claim C10 states it. -/
def unreadSpec (notifs : List Notification) (userId : Nat) : Nat :=
  notifs.countP (fun n => n.destinataire == userId && !n.lue)

/-- The unread count the dispatcher attaches to the push for the author of
the action of `v`, computed on the table as it stands right after the
signal ran (`core/signals.py`, lines 69 and 146 compute the count after
`Notification.objects.create`). -/
def signals_push_count (v : Validation) (notifs : List Notification) : Nat :=
  signals_unread_count (create_validation_notification v notifs) v.action.auteur.id

/-- The two mutable tables the embedded operations touch: the validation
ledger and the notification table. -/
structure St where
  validations : List Validation
  notifications : List Notification
  deriving DecidableEq

/-- Outcome of `validate_action` surfaced to the caller through the Django
messages framework. -/
inductive VMsg where
  | errNotAdmin
  | warnAlreadyValidated
  | ok (selfWarning : Bool)
  deriving DecidableEq

/-- `core/views.py`, `validate_action`: refuses non-admin users, refuses
(with a warning, creating nothing) an action whose derived status is
already "validé", surfaces a self-validation warning when the author
validates their own action, then appends a "validé" ledger entry; the
post_save signal runs synchronously on creation.  `latest` is the result
of the `latest_validation` query for this action. -/
def validate_action (user : User) (action : Action) (latest : Option Validation)
    (newId now : Nat) (st : St) : St × VMsg :=
  if user.role != "admin" then (st, VMsg.errNotAdmin)
  else if validation_status_of latest == "validé" then (st, VMsg.warnAlreadyValidated)
  else
    let selfWarning := action.auteur.id == user.id
    let v : Validation := { id := newId, action := action, validateur := user,
                            statut := "validé", commentaire := none,
                            date_validation := now }
    ({ validations := st.validations ++ [v],
       notifications := create_validation_notification v st.notifications },
     VMsg.ok selfWarning)

/-- Outcome of `reject_action` surfaced to the caller. -/
inductive RMsg where
  | errNotAdmin
  | errCommentRequired
  | errClean (e : String)
  | ok
  deriving DecidableEq

/-- `core/views.py`, `reject_action` (POST path): refuses non-admin users,
strips the submitted comment and refuses when it is empty, then builds a
"refusé" entry, runs `full_clean` (modelled by `Validation.clean`) and
saves it; the post_save signal runs synchronously on creation. -/
def reject_action (user : User) (action : Action) (commentRaw : String)
    (newId now : Nat) (st : St) : St × RMsg :=
  if user.role != "admin" then (st, RMsg.errNotAdmin)
  else
    let commentaire := pyStrip commentRaw
    if commentaire == "" then (st, RMsg.errCommentRequired)
    else
      let v : Validation := { id := newId, action := action, validateur := user,
                              statut := "refusé", commentaire := some commentaire,
                              date_validation := now }
      match v.clean with
      | Except.error e => (st, RMsg.errClean e)
      | Except.ok _ =>
        ({ validations := st.validations ++ [v],
           notifications := create_validation_notification v st.notifications },
         RMsg.ok)

/-- Outcome of `comment_action` surfaced to the caller. -/
inductive CMsg where
  | errNotAdmin
  | errCommentRequired
  | ok
  deriving DecidableEq

/-- `core/views.py`, `comment_action` (POST path): refuses non-admin users,
strips the comment and refuses when it is empty, then appends an entry
keeping the current derived status of the action
(`statut=action.validation_status`); the post_save signal runs
synchronously on creation. -/
def comment_action (user : User) (action : Action) (latest : Option Validation)
    (commentRaw : String) (newId now : Nat) (st : St) : St × CMsg :=
  if user.role != "admin" then (st, CMsg.errNotAdmin)
  else
    let commentaire := pyStrip commentRaw
    if commentaire == "" then (st, CMsg.errCommentRequired)
    else
      let v : Validation := { id := newId, action := action, validateur := user,
                              statut := validation_status_of latest,
                              commentaire := some commentaire,
                              date_validation := now }
      ({ validations := st.validations ++ [v],
         notifications := create_validation_notification v st.notifications },
       CMsg.ok)

/-- `core/signals.py`, `create_new_action_notification`: the message text
composed for each admin; the description is cut to its first 100
characters followed by "..." when it is longer than 100 characters. -/
def newActionMessage (a : Action) : String :=
  let base := "Nouvelle action créée par " ++ a.auteur.username ++ " le "
      ++ a.date_creation_fmt ++ "."
  if a.description.length > 100 then
    base ++ "\nDescription : " ++ a.description.take 100 ++ "..."
  else
    base ++ "\nDescription : " ++ a.description

/-- `core/signals.py`, `create_new_action_notification` (post_save receiver
on `Action`, `created=True` path): one Notification of type
"nouvelle_action" for every user with the admin role and a validated
account (`User.objects.filter(role='admin', is_validated=True)`), the
author excluded (`exclude(id=instance.auteur.id)`).  Returns the created
rows. -/
def create_new_action_notification (users : List User) (a : Action) :
    List Notification :=
  let admins := (users.filter (fun u => u.role == "admin" && u.is_validated)).filter
      (fun u => u.id != a.auteur.id)
  admins.map (fun adm => { destinataire := adm.id,
                           type := "nouvelle_action",
                           message := newActionMessage a,
                           lue := false,
                           actionId := some a.id,
                           validationId := none })

/-- `core/views.py`, `action_edit`: the guard sequence of the edit view.
Editing is refused unless the requesting user is the author, the service
of the action is still "ouvert" and not past its closing timestamp, and
the derived validation status is not "validé". -/
def action_edit_allowed (user : User) (a : Action) (latest : Option Validation)
    (now : Nat) : Bool :=
  if a.auteur.id != user.id then false
  else if a.service.statut != "ouvert" || decide (a.service.date_fermeture ≤ now) then false
  else if validation_status_of latest == "validé" then false
  else true

/-- The value a Python json.loads call can return: Python has no separate
integer/float claim to settle here, so numbers are carried as integers. -/
inductive PyJson where
  | null
  | bool (b : Bool)
  | num (n : Int)
  | str (s : String)
  | arr (elems : List PyJson)
  | obj (fields : List (String × PyJson))

/-- The outcome of `json.loads` on an inbound WebSocket text frame:
either a `json.JSONDecodeError` or a parsed Python value.  Parsing itself
is the Python standard library, consumed here as an input. -/
inductive ParseResult where
  | parseError
  | parsed (j : PyJson)

/-- Python `dict.get` on a parsed JSON object (objects parsed by
json.loads have unique keys, the last duplicate winning; lookup of the
first match on a duplicate-free field list models it). -/
def dictGet (fields : List (String × PyJson)) (k : String) : Option PyJson :=
  match fields.find? (fun p => p.1 == k) with
  | some p => some p.2
  | none => none

/-- Whether `data.get('type') == 'get_unread_count'` holds for a parsed
JSON object: the "type" key must be present and hold exactly that
string. -/
def isGetUnreadRequest (fields : List (String × PyJson)) : Bool :=
  match dictGet fields "type" with
  | some (PyJson.str s) => s == "get_unread_count"
  | _ => false

/-- A well-formed inbound request in the sense of claim C9: a parsed JSON
object whose "type" key holds the string "get_unread_count". -/
def WellFormedRequest : ParseResult → Bool
  | ParseResult.parsed (PyJson.obj fields) => isGetUnreadRequest fields
  | _ => false

/-- Whether a parsed Python value is a dict (only a dict supports the
`data.get` call the consumer performs). -/
def PyJson.isDict : PyJson → Bool
  | PyJson.obj _ => true
  | _ => false

/-- What `NotificationConsumer.receive` does with one inbound frame. -/
inductive ReceiveOutcome where
  | silent
  | reply (count : Nat)
  | raisedAttributeError
  deriving DecidableEq

/-- `core/consumers.py`, `NotificationConsumer.receive`: `json.loads` is
wrapped in a try block whose only handler catches `json.JSONDecodeError`
and does nothing.  On a parsed object, `data.get('type')` is compared to
"get_unread_count"; a match is answered with the recomputed unread count
and anything else is ignored.  When the parsed value is not a dict,
`data.get` raises `AttributeError`, which no handler catches. -/
def NotificationConsumer_receive (input : ParseResult) (notifs : List Notification)
    (userId : Nat) : ReceiveOutcome :=
  match input with
  | ParseResult.parseError => ReceiveOutcome.silent
  | ParseResult.parsed (PyJson.obj fields) =>
    if isGetUnreadRequest fields then
      ReceiveOutcome.reply (consumer_get_unread_count notifs userId)
    else
      ReceiveOutcome.silent
  | ParseResult.parsed _ => ReceiveOutcome.raisedAttributeError

/-- A sample plain user (role "user"), author of the sample action. -/
def sampleAuthor : User :=
  { id := 1, username := "alice", role := "user", is_validated := true }

/-- A sample validated admin. -/
def sampleAdmin : User :=
  { id := 2, username := "bob", role := "admin", is_validated := true }

/-- A sample open, unexpired service (closing timestamp 100). -/
def sampleService : Service :=
  { statut := "ouvert", date_fermeture := 100 }

/-- A sample action authored by `sampleAuthor`. -/
def sampleAction : Action :=
  { id := 1, auteur := sampleAuthor, service := sampleService,
    description := "desc", date_creation_fmt := "01/01/2025 à 10:00" }

/-- A sample action authored by the admin `sampleAdmin` (used for the
self-validation claim). -/
def sampleSelfAction : Action :=
  { id := 2, auteur := sampleAdmin, service := sampleService,
    description := "desc", date_creation_fmt := "02/01/2025 à 10:00" }

/-- A ledger entry with outcome "validé" at timestamp 5, id 1. -/
def vLedger1 : Validation :=
  { id := 1, action := sampleAction, validateur := sampleAdmin,
    statut := "validé", commentaire := none, date_validation := 5 }

/-- A ledger entry with outcome "refusé" at the same timestamp 5, id 2:
together with `vLedger1` it exhibits a clock-resolution collision. -/
def vLedger2 : Validation :=
  { id := 2, action := sampleAction, validateur := sampleAdmin,
    statut := "refusé", commentaire := some "non", date_validation := 5 }

/-- A ledger entry with outcome "validé" and a truthy comment, as
`comment_action` creates on an already-validated action. -/
def vValidatedComment : Validation :=
  { id := 3, action := sampleAction, validateur := sampleAdmin,
    statut := "validé", commentaire := some "X", date_validation := 7 }

/-- A state whose ledger already holds the validated entry `vLedger1`. -/
def stValidated : St :=
  { validations := [vLedger1], notifications := [] }

/-- The empty state. -/
def stEmpty : St :=
  { validations := [], notifications := [] }

/-- A well-formed inbound WebSocket frame, parsed. -/
def wfInput : ParseResult :=
  ParseResult.parsed (PyJson.obj [("type", PyJson.str "get_unread_count")])

/-- `sub` occurs in `msg` as a contiguous run of characters. -/
def containsText (msg sub : String) : Prop :=
  sub.data <:+: msg.data

instance (msg sub : String) : Decidable (containsText msg sub) :=
  inferInstanceAs (Decidable (sub.data <:+: msg.data))

/-- The comment `c` stands at the end of `msg` as the distinct block the
dispatcher appends: the text "\n\nCommentaire : " followed by `c`. -/
def hasCommentBlock (msg c : String) : Prop :=
  ("\n\nCommentaire : " ++ c).data <:+ msg.data

instance (msg c : String) : Decidable (hasCommentBlock msg c) :=
  inferInstanceAs (Decidable (("\n\nCommentaire : " ++ c).data <:+ msg.data))

/-! ## Theorems -/

/-- C10 witness helper fact is not needed; the agreement holds with no
hypotheses.  All three unread-count computations in the source are the
same query over durable storage, and each equals the number of the
Notifications of the user whose read flag is false; the count the
dispatcher attaches to a push equals that number computed on the table
right after the insertion. -/
theorem unread_counts_agree (notifs : List Notification) (userId : Nat)
    (v : Validation) :
    views_get_unread_count notifs userId = unreadSpec notifs userId
    ∧ consumer_get_unread_count notifs userId = unreadSpec notifs userId
    ∧ signals_unread_count notifs userId = unreadSpec notifs userId
    ∧ signals_push_count v notifs
        = unreadSpec (create_validation_notification v notifs) v.action.auteur.id := by
  have key : ∀ (ns : List Notification) (uid : Nat),
      (ns.filter (fun n => n.destinataire == uid && n.lue == false)).length
        = unreadSpec ns uid := by
    intro ns uid
    unfold unreadSpec
    rw [← List.countP_eq_length_filter]
    refine List.countP_congr ?_
    intro n _
    cases h : n.lue <;> simp [h]
  exact ⟨key notifs userId, key notifs userId, key notifs userId,
    key (create_validation_notification v notifs) v.action.auteur.id⟩

/-- C2: a user who holds neither the admin nor the validator capability is
refused by all three ledger-entry submissions (`validate_action`,
`reject_action`, `comment_action`) with the not-admin error and an
unchanged state: no ledger entry and no Notification is produced.
Contrapositively, a submission succeeds only for a user with that
capability (in fact the source demands exactly the admin role). -/
theorem submission_requires_capability (user : User) (action : Action)
    (latest : Option Validation) (commentRaw : String) (newId now : Nat) (st : St)
    (h : ¬(user.role = "admin" ∨ user.role = "validator")) :
    validate_action user action latest newId now st = (st, VMsg.errNotAdmin)
    ∧ reject_action user action commentRaw newId now st = (st, RMsg.errNotAdmin)
    ∧ comment_action user action latest commentRaw newId now st = (st, CMsg.errNotAdmin) := by
  have hadm : user.role ≠ "admin" := fun he => h (Or.inl he)
  refine ⟨?_, ?_, ?_⟩ <;>
    simp [validate_action, reject_action, comment_action, hadm]

/-- C2 witness: the plain user `sampleAuthor` (role "user") is refused by
all three submissions on the empty state. -/
theorem submission_requires_capability_witness :
    validate_action sampleAuthor sampleAction none 1 3 stEmpty = (stEmpty, VMsg.errNotAdmin)
    ∧ reject_action sampleAuthor sampleAction "bad" 1 3 stEmpty = (stEmpty, RMsg.errNotAdmin)
    ∧ comment_action sampleAuthor sampleAction none "bad" 1 3 stEmpty
        = (stEmpty, CMsg.errNotAdmin) :=
  submission_requires_capability sampleAuthor sampleAction none "bad" 1 3 stEmpty
    (by decide)

/-- C3: an admin submitting a rejection whose comment strips to the empty
string (empty or whitespace-only) is refused with the comment-required
error and an unchanged state: the ledger is unchanged and no Notification
is created. -/
theorem reject_blank_comment_fails (user : User) (action : Action)
    (commentRaw : String) (newId now : Nat) (st : St)
    (hrole : user.role = "admin") (hblank : pyStrip commentRaw = "") :
    reject_action user action commentRaw newId now st = (st, RMsg.errCommentRequired) := by
  simp [reject_action, hrole, hblank]

/-- C3 witness: the admin `sampleAdmin` rejecting `sampleAction` with a
whitespace-only comment is refused and the state is unchanged. -/
theorem reject_blank_comment_fails_witness :
    reject_action sampleAdmin sampleAction "   " 1 3 stValidated
      = (stValidated, RMsg.errCommentRequired) :=
  reject_blank_comment_fails sampleAdmin sampleAction "   " 1 3 stValidated
    (by decide) (by decide)

/-- `laterOf` returns one of its two arguments. -/
theorem laterOf_cases (a b : Validation) : laterOf a b = a ∨ laterOf a b = b := by
  unfold laterOf
  split
  · exact Or.inr rfl
  · exact Or.inl rfl

/-- The timestamp of the left argument bounds the timestamp of `laterOf`. -/
theorem date_le_laterOf_left (a b : Validation) :
    a.date_validation ≤ (laterOf a b).date_validation := by
  unfold laterOf
  by_cases h : b.date_validation > a.date_validation
      ∨ (b.date_validation = a.date_validation ∧ b.id > a.id)
  · rw [if_pos h]
    rcases h with h | ⟨h, _⟩
    · exact Nat.le_of_lt h
    · exact Nat.le_of_eq h.symm
  · rw [if_neg h]

/-- The timestamp of the right argument bounds the timestamp of `laterOf`. -/
theorem date_le_laterOf_right (a b : Validation) :
    b.date_validation ≤ (laterOf a b).date_validation := by
  unfold laterOf
  by_cases h : b.date_validation > a.date_validation
      ∨ (b.date_validation = a.date_validation ∧ b.id > a.id)
  · rw [if_pos h]
  · rw [if_neg h]
    rcases Nat.lt_or_ge a.date_validation b.date_validation with hlt | hge
    · exact absurd (Or.inl hlt) h
    · exact hge

/-- The spec-side latest entry belongs to the ledger. -/
theorem specLatest_mem : ∀ {l : List Validation} {w : Validation},
    specLatest l = some w → w ∈ l := by
  intro l
  induction l with
  | nil => intro w h; simp [specLatest] at h
  | cons v vs ih =>
    intro w h
    simp only [specLatest] at h
    cases hs : specLatest vs with
    | none =>
      rw [hs] at h
      simp only [Option.some.injEq] at h
      exact h ▸ List.mem_cons_self v vs
    | some u =>
      rw [hs] at h
      simp only [Option.some.injEq] at h
      rcases laterOf_cases v u with hc | hc
      · rw [hc] at h
        exact h ▸ List.mem_cons_self v vs
      · rw [hc] at h
        exact h ▸ List.mem_cons_of_mem v (ih hs)

/-- The spec-side latest entry has a maximal timestamp in the ledger. -/
theorem specLatest_ge : ∀ {l : List Validation} {w : Validation},
    specLatest l = some w → ∀ v ∈ l, v.date_validation ≤ w.date_validation := by
  intro l
  induction l with
  | nil => intro w _ v hv; cases hv
  | cons x vs ih =>
    intro w h v hv
    simp only [specLatest] at h
    cases hs : specLatest vs with
    | none =>
      rw [hs] at h
      simp only [Option.some.injEq] at h
      rcases List.mem_cons.mp hv with hvx | hvs
      · rw [hvx, ← h]
      · cases vs with
        | nil => cases hvs
        | cons y ys =>
          exfalso
          simp only [specLatest] at hs
          cases hy : specLatest ys <;> rw [hy] at hs <;> cases hs
    | some u =>
      rw [hs] at h
      simp only [Option.some.injEq] at h
      rcases List.mem_cons.mp hv with hvx | hvs
      · rw [hvx, ← h]
        exact date_le_laterOf_left x u
      · calc v.date_validation ≤ u.date_validation := ih hs v hvs
          _ ≤ (laterOf x u).date_validation := date_le_laterOf_right x u
          _ = w.date_validation := by rw [h]

/-- The spec-side latest entry exists on a non-empty ledger. -/
theorem specLatest_isSome {l : List Validation} (h : l ≠ []) :
    ∃ w, specLatest l = some w := by
  cases l with
  | nil => exact absurd rfl h
  | cons v vs =>
    simp only [specLatest]
    cases specLatest vs with
    | none => exact ⟨v, rfl⟩
    | some u => exact ⟨laterOf v u, rfl⟩

/-- C1 (amended): when no two ledger entries share a creation timestamp,
every possible result of the source query (`order_by('-date_validation').first()`)
yields the same status as the spec-side latest-(timestamp, id) entry, and
an empty ledger yields "en_attente".  On a timestamp tie the source query
has no id tie-break, so the claim only holds under distinctness. -/
theorem current_status_latest_pair (l : List Validation) (o : Option Validation)
    (hq : QueryFirst l o)
    (hdist : ∀ x ∈ l, ∀ y ∈ l, x ≠ y → x.date_validation ≠ y.date_validation) :
    validation_status_of o = validation_status_of (specLatest l) := by
  cases o with
  | none =>
    have he : l = [] := hq
    subst he
    rfl
  | some v =>
    obtain ⟨hv, hmax⟩ := hq
    have hne : l ≠ [] := by
      intro he
      rw [he] at hv
      cases hv
    obtain ⟨w, hw⟩ := specLatest_isSome hne
    have hwl : w ∈ l := specLatest_mem hw
    have h1 : v.date_validation ≤ w.date_validation := specLatest_ge hw v hv
    have h2 : w.date_validation ≤ v.date_validation := hmax w hwl
    have hvw : v = w := by
      by_contra hne2
      exact hdist v hv w hwl hne2 (Nat.le_antisymm h1 h2)
    rw [hw, hvw]

/-- C1 witness: on the singleton ledger holding `vLedger1` the only query
result is `vLedger1` itself and its status agrees with the spec-side
latest entry. -/
theorem current_status_latest_pair_witness :
    validation_status_of (some vLedger1) = validation_status_of (specLatest [vLedger1]) :=
  current_status_latest_pair [vLedger1] (some vLedger1) (by decide) (by decide)

/-- C1 counterexample: `vLedger1` (id 1, outcome "validé") and `vLedger2`
(id 2, outcome "refusé") share timestamp 5.  The source query may return
`vLedger1`, whose status "validé" differs from the status "refusé" of the
latest-(timestamp, id) entry `vLedger2` demanded by the claim, so
`current_status` does not implement the ascending-id tie-break. -/
theorem current_status_tie_counterexample :
    QueryFirst [vLedger1, vLedger2] (some vLedger1)
    ∧ specLatest [vLedger1, vLedger2] = some vLedger2
    ∧ validation_status_of (some vLedger1)
        ≠ validation_status_of (specLatest [vLedger1, vLedger2]) := by
  decide

/-- C4: when an admin validates their own action (and the action is not
already validated, the precondition of the validate path), the submission
succeeds — exactly one "validé" ledger entry is appended — the
self-validation warning is surfaced (`VMsg.ok true`), and the notification
table is unchanged: the dispatcher skips entirely when the validator is
the author, so the author never receives a Notification for their own
validation. -/
theorem self_validation_succeeds_without_notification (user : User) (action : Action)
    (latest : Option Validation) (newId now : Nat) (st : St)
    (hrole : user.role = "admin")
    (hnotval : validation_status_of latest ≠ "validé")
    (hself : action.auteur = user) :
    validate_action user action latest newId now st
      = ({ validations := st.validations ++
             [{ id := newId, action := action, validateur := user, statut := "validé",
                commentaire := none, date_validation := now }],
           notifications := st.notifications }, VMsg.ok true) := by
  subst hself
  simp [validate_action, create_validation_notification, hrole, hnotval]

/-- C4 witness: the admin `sampleAdmin` validating their own action
`sampleSelfAction` on the empty state appends one entry, surfaces the
self-validation warning, and creates no Notification. -/
theorem self_validation_succeeds_without_notification_witness :
    validate_action sampleAdmin sampleSelfAction none 1 5 stEmpty
      = ({ validations := [{ id := 1, action := sampleSelfAction,
                             validateur := sampleAdmin, statut := "validé",
                             commentaire := none, date_validation := 5 }],
           notifications := [] }, VMsg.ok true) :=
  self_validation_succeeds_without_notification sampleAdmin sampleSelfAction none 1 5
    stEmpty (by decide) (by decide) (by decide)

/-- C7: the guard sequence of the edit view grants editing exactly when
the requesting user is the author of the action, the derived validation
status is "en_attente" or "refusé", and the originating service is open
("ouvert") and unexpired (its closing timestamp is still in the future).
The hypothesis restricts the derived status to the three values the
`statut` column can hold. -/
theorem can_edit_iff (user : User) (a : Action) (latest : Option Validation) (now : Nat)
    (hwf : validation_status_of latest = "en_attente"
      ∨ validation_status_of latest = "validé"
      ∨ validation_status_of latest = "refusé") :
    action_edit_allowed user a latest now = true ↔
      (a.auteur.id = user.id
        ∧ (validation_status_of latest = "en_attente"
            ∨ validation_status_of latest = "refusé")
        ∧ a.service.statut = "ouvert"
        ∧ now < a.service.date_fermeture) := by
  simp only [action_edit_allowed]
  split_ifs with h1 h2 h3
  · simp only [bne_iff_ne, ne_eq] at h1
    simp [h1]
  · simp only [Bool.or_eq_true, bne_iff_ne, ne_eq, decide_eq_true_eq] at h2
    simp only [bne_iff_ne, ne_eq, not_not] at h1
    constructor
    · intro h
      cases h
    · rintro ⟨_, _, hopen, hlt⟩
      rcases h2 with h2 | h2
      · exact absurd hopen h2
      · exact absurd h2 (Nat.not_le_of_lt hlt)
  · simp only [beq_iff_eq] at h3
    simp only [bne_iff_ne, ne_eq, not_not] at h1
    constructor
    · intro h
      cases h
    · rintro ⟨_, hst, _, _⟩
      rcases hst with hst | hst <;> rw [hst] at h3 <;> exact absurd h3 (by decide)
  · simp only [bne_iff_ne, ne_eq, not_not] at h1
    simp only [Bool.or_eq_true, bne_iff_ne, ne_eq, decide_eq_true_eq, not_or, not_not] at h2
    simp only [beq_iff_eq] at h3
    have hlt : now < a.service.date_fermeture := Nat.lt_of_not_le h2.2
    have hst : validation_status_of latest = "en_attente"
        ∨ validation_status_of latest = "refusé" := by
      rcases hwf with h | h | h
      · exact Or.inl h
      · exact absurd h h3
      · exact Or.inr h
    simp [h1, h2.1, hst, hlt]

/-- C7 witness: the author `sampleAuthor` may edit `sampleAction` at time
50 (open unexpired service, empty ledger hence status "en_attente"). -/
theorem can_edit_iff_witness :
    action_edit_allowed sampleAuthor sampleAction none 50 = true ↔
      (sampleAction.auteur.id = sampleAuthor.id
        ∧ (validation_status_of none = "en_attente"
            ∨ validation_status_of none = "refusé")
        ∧ sampleAction.service.statut = "ouvert"
        ∧ 50 < sampleAction.service.date_fermeture) :=
  can_edit_iff sampleAuthor sampleAction none 50 (by decide)

/-- C8 (amended): when the derived status of the action is already
"validé", the exposed `validate_action` view refuses the submission — it
surfaces the already-validated warning and appends nothing — while the
store layer (`Validation.clean`) would accept a fresh "validé" entry from
the same admin, i.e. re-validation is permitted by the store but blocked
by the workflow view. -/
theorem revalidation_blocked_by_view (user : User) (a : Action)
    (latest : Option Validation) (newId now : Nat) (st : St)
    (hrole : user.role = "admin")
    (hval : validation_status_of latest = "validé") :
    validate_action user a latest newId now st = (st, VMsg.warnAlreadyValidated)
    ∧ Validation.clean { id := newId, action := a, validateur := user,
                         statut := "validé", commentaire := none,
                         date_validation := now }
      = Except.ok () := by
  constructor
  · simp [validate_action, hrole, hval]
  · simp [Validation.clean, pyTruthy, hrole]

/-- C8 witness: on the state whose ledger holds the validated entry
`vLedger1`, the admin `sampleAdmin` re-validating `sampleAction` is
refused with the warning, while the store would accept the entry. -/
theorem revalidation_blocked_by_view_witness :
    validate_action sampleAdmin sampleAction (some vLedger1) 2 10 stValidated
      = (stValidated, VMsg.warnAlreadyValidated)
    ∧ Validation.clean { id := 2, action := sampleAction,
                         validateur := sampleAdmin, statut := "validé",
                         commentaire := none, date_validation := 10 }
      = Except.ok () :=
  revalidation_blocked_by_view sampleAdmin sampleAction (some vLedger1) 2 10 stValidated
    (by decide) (by decide)

/-- C8 counterexample: the claim says a validation submitted through the
exposed operation on an already-validated action still appends a ledger
entry.  On the concrete state `stValidated` (ledger `[vLedger1]`, a
consistent query result `some vLedger1`, derived status "validé") the
admin `sampleAdmin` submits a validation and the view returns the
already-validated warning with the state unchanged: no entry is
appended. -/
theorem revalidation_appends_counterexample :
    QueryFirst (actionValidations stValidated.validations sampleAction) (some vLedger1)
    ∧ validation_status_of (some vLedger1) = "validé"
    ∧ validate_action sampleAdmin sampleAction (some vLedger1) 2 10 stValidated
        = (stValidated, VMsg.warnAlreadyValidated)
    ∧ (validate_action sampleAdmin sampleAction (some vLedger1) 2 10 stValidated).1.validations
        = stValidated.validations := by
  decide

/-- C5 (amended): for a ledger entry carrying a truthy comment the message
composed by the dispatcher always contains the identity (username) of the
validator; the comment is appended as a distinct block only for the
"refusé" and pending-comment branches, while the "validé" branch composes
its fixed sentence and omits the comment. -/
theorem notification_message_comment (v : Validation) (c : String)
    (hc : v.commentaire = some c) (hne : c ≠ "") :
    containsText (composeValidationMessage v) v.validateur.username
    ∧ (v.statut ≠ "validé" → hasCommentBlock (composeValidationMessage v) c)
    ∧ (v.statut = "validé" →
        composeValidationMessage v
          = "Votre action du " ++ v.action.date_creation_fmt
            ++ " a été validée par " ++ v.validateur.username ++ ".") := by
  have hcb : commentBlock v.commentaire = "\n\nCommentaire : " ++ c := by
    rw [hc]
    simp [commentBlock, hne]
  by_cases h1 : v.statut = "validé"
  · refine ⟨?_, fun hcon => absurd h1 hcon, fun _ => by simp [composeValidationMessage, h1]⟩
    simp only [composeValidationMessage, h1, beq_self_eq_true, if_true]
    exact ⟨("Votre action du " ++ v.action.date_creation_fmt
        ++ " a été validée par ").data, ".".data, by simp⟩
  · by_cases h2 : v.statut = "refusé"
    · have hmsg : composeValidationMessage v
          = "Votre action du " ++ v.action.date_creation_fmt ++ " a été refusée par "
            ++ v.validateur.username ++ "." ++ ("\n\nCommentaire : " ++ c) := by
        simp [composeValidationMessage, h1, h2, hcb]
      refine ⟨?_, fun _ => ?_, fun hcon => absurd hcon h1⟩
      · rw [hmsg]
        exact ⟨("Votre action du " ++ v.action.date_creation_fmt
            ++ " a été refusée par ").data,
          ("." ++ ("\n\nCommentaire : " ++ c)).data, by simp⟩
      · rw [hmsg]
        exact ⟨("Votre action du " ++ v.action.date_creation_fmt ++ " a été refusée par "
            ++ v.validateur.username ++ ".").data, by simp⟩
    · have hmsg : composeValidationMessage v
          = v.validateur.username ++ " a commenté votre action du "
            ++ v.action.date_creation_fmt ++ "." ++ ("\n\nCommentaire : " ++ c) := by
        simp [composeValidationMessage, h1, h2, hcb]
      refine ⟨?_, fun _ => ?_, fun hcon => absurd hcon h1⟩
      · rw [hmsg]
        exact ⟨[], (" a commenté votre action du " ++ v.action.date_creation_fmt
            ++ "." ++ ("\n\nCommentaire : " ++ c)).data, by simp⟩
      · rw [hmsg]
        exact ⟨(v.validateur.username ++ " a commenté votre action du "
            ++ v.action.date_creation_fmt ++ ".").data, by simp⟩

/-- C5 witness: the rejection entry `vLedger2` (comment "non") yields a
message containing the username of the validator and ending with the
comment block. -/
theorem notification_message_comment_witness :
    containsText (composeValidationMessage vLedger2) vLedger2.validateur.username
    ∧ (vLedger2.statut ≠ "validé" → hasCommentBlock (composeValidationMessage vLedger2) "non")
    ∧ (vLedger2.statut = "validé" →
        composeValidationMessage vLedger2
          = "Votre action du " ++ vLedger2.action.date_creation_fmt
            ++ " a été validée par " ++ vLedger2.validateur.username ++ ".") :=
  notification_message_comment vLedger2 "non" (by decide) (by decide)

/-- C5 counterexample: the entry `vValidatedComment` has outcome "validé"
and the truthy comment "X" (as `comment_action` creates on an
already-validated action), yet the composed message does not contain the
comment at all, let alone as an appended block — the claim fails for the
"validé" outcome. -/
theorem notification_message_comment_counterexample :
    vValidatedComment.commentaire = some "X"
    ∧ ("X" : String) ≠ ""
    ∧ ¬ containsText (composeValidationMessage vValidatedComment) "X"
    ∧ ¬ hasCommentBlock (composeValidationMessage vValidatedComment) "X" := by
  decide

/-- C9 (amended): frames that are not valid JSON are ignored silently
(the only handler catches `json.JSONDecodeError` and passes), parsed
dicts without a "type" key equal to "get_unread_count" are ignored
silently, a well-formed request is answered with the unread count
recomputed from durable storage, but a parsed frame whose top-level value
is not a dict makes `data.get` raise an uncaught `AttributeError` instead
of being ignored. -/
theorem receive_malformed_handling (input : ParseResult) (notifs : List Notification)
    (userId : Nat) :
    (input = ParseResult.parseError →
      NotificationConsumer_receive input notifs userId = ReceiveOutcome.silent)
    ∧ (∀ fields, input = ParseResult.parsed (PyJson.obj fields) →
        isGetUnreadRequest fields = false →
        NotificationConsumer_receive input notifs userId = ReceiveOutcome.silent)
    ∧ (WellFormedRequest input = true →
        NotificationConsumer_receive input notifs userId
          = ReceiveOutcome.reply (unreadSpec notifs userId))
    ∧ (∀ j, input = ParseResult.parsed j → j.isDict = false →
        NotificationConsumer_receive input notifs userId
          = ReceiveOutcome.raisedAttributeError) := by
  have hcount : consumer_get_unread_count notifs userId = unreadSpec notifs userId := by
    unfold consumer_get_unread_count unreadSpec
    rw [← List.countP_eq_length_filter]
    refine List.countP_congr ?_
    intro n _
    cases h : n.lue <;> simp [h]
  refine ⟨?_, ?_, ?_, ?_⟩
  · intro h
    subst h
    rfl
  · intro fields h hreq
    subst h
    simp [NotificationConsumer_receive, hreq]
  · intro h
    cases input with
    | parseError => cases h
    | parsed j =>
      cases j with
      | obj fields =>
        have hreq : isGetUnreadRequest fields = true := h
        simp [NotificationConsumer_receive, hreq, hcount]
      | null => cases h
      | bool b => cases h
      | num n => cases h
      | str s => cases h
      | arr elems => cases h
  · intro j h hdict
    subst h
    cases j with
    | obj fields => cases hdict
    | null => rfl
    | bool b => rfl
    | num n => rfl
    | str s => rfl
    | arr elems => rfl

/-- C9 witness: the well-formed request frame is answered with the unread
count recomputed from the (empty) durable store. -/
theorem receive_malformed_handling_witness :
    NotificationConsumer_receive wfInput [] 7 = ReceiveOutcome.reply (unreadSpec [] 7) :=
  (receive_malformed_handling wfInput [] 7).2.2.1 (by decide)

/-- C9 counterexample: the inbound frame "42" is valid JSON but not a
well-formed request; `receive` neither ignores it nor replies — the
`data.get` call raises an uncaught `AttributeError` (only
`json.JSONDecodeError` is caught), contradicting the claim that every
malformed frame is ignored silently. -/
theorem receive_malformed_counterexample :
    WellFormedRequest (ParseResult.parsed (PyJson.num 42)) = false
    ∧ NotificationConsumer_receive (ParseResult.parsed (PyJson.num 42)) [] 1
        = ReceiveOutcome.raisedAttributeError
    ∧ NotificationConsumer_receive (ParseResult.parsed (PyJson.num 42)) [] 1
        ≠ ReceiveOutcome.silent := by
  decide

/-- In a user table with pairwise-distinct ids, exactly one row carries
the id of a member. -/
theorem countP_id_eq_one (users : List User) (u : User)
    (hnodup : (users.map User.id).Nodup) (hu : u ∈ users) :
    users.countP (fun x => x.id == u.id) = 1 := by
  induction users with
  | nil => cases hu
  | cons v us ih =>
    rw [List.map_cons, List.nodup_cons] at hnodup
    rcases List.mem_cons.mp hu with h | h
    · subst h
      have hz : us.countP (fun x => x.id == u.id) = 0 := by
        rw [List.countP_eq_zero]
        intro x hx hpx
        simp only [beq_iff_eq] at hpx
        exact hnodup.1 (hpx ▸ List.mem_map_of_mem User.id hx)
      rw [List.countP_cons, hz]
      simp
    · have hvne : (v.id == u.id) = false := by
        simp only [beq_eq_false_iff_ne, ne_eq]
        intro he
        exact hnodup.1 (he ▸ List.mem_map_of_mem User.id h)
      rw [List.countP_cons, ih hnodup.2 h]
      simp [hvne]

/-- C6: on a user table with pairwise-distinct ids, creating an action
produces, for each user, exactly one Notification when the user has the
admin role, a validated account and is not the author, and none
otherwise; every produced Notification is of type "nouvelle_action",
unread, addressed to such a user, and carries the composed message, whose
description part is cut to 100 characters followed by "..." exactly when
the description is longer than 100 characters. -/
theorem new_action_notifies_validated_admins (users : List User) (a : Action)
    (hnodup : (users.map User.id).Nodup) :
    (∀ u ∈ users,
      (create_new_action_notification users a).countP (fun n => n.destinataire == u.id)
        = if u.role = "admin" ∧ u.is_validated = true ∧ u.id ≠ a.auteur.id
          then 1 else 0)
    ∧ (∀ n ∈ create_new_action_notification users a,
        n.type = "nouvelle_action" ∧ n.lue = false ∧ n.message = newActionMessage a
        ∧ ∃ u ∈ users, u.role = "admin" ∧ u.is_validated = true
            ∧ u.id ≠ a.auteur.id ∧ n.destinataire = u.id)
    ∧ (a.description.length > 100 →
        newActionMessage a
          = "Nouvelle action créée par " ++ a.auteur.username ++ " le "
            ++ a.date_creation_fmt ++ "." ++ "\nDescription : "
            ++ a.description.take 100 ++ "...")
    ∧ (a.description.length ≤ 100 →
        newActionMessage a
          = "Nouvelle action créée par " ++ a.auteur.username ++ " le "
            ++ a.date_creation_fmt ++ "." ++ "\nDescription : " ++ a.description) := by
  refine ⟨?_, ?_, ?_, ?_⟩
  · intro u hu
    unfold create_new_action_notification
    rw [List.countP_map, List.countP_filter, List.countP_filter]
    by_cases helig : u.role = "admin" ∧ u.is_validated = true ∧ u.id ≠ a.auteur.id
    · rw [if_pos helig]
      rw [List.countP_congr (q := fun x => x.id == u.id) ?_]
      · exact countP_id_eq_one users u hnodup hu
      · intro x hx
        simp only [Function.comp, Bool.and_eq_true, beq_iff_eq, bne_iff_ne, ne_eq]
        constructor
        · rintro ⟨⟨hid, _⟩, _⟩
          exact hid
        · intro hid
          have hxu : x = u := List.inj_on_of_nodup_map hnodup hx hu hid
          subst hxu
          exact ⟨⟨hid, helig.2.2⟩, helig.1, by simp [helig.2.1]⟩
    · rw [if_neg helig]
      rw [List.countP_eq_zero]
      intro x hx hpx
      simp only [Function.comp, Bool.and_eq_true, beq_iff_eq, bne_iff_ne, ne_eq] at hpx
      obtain ⟨⟨hid, hxne⟩, hrole, hval⟩ := hpx
      have hxu : x = u := List.inj_on_of_nodup_map hnodup hx hu hid
      subst hxu
      exact helig ⟨hrole, by simpa using hval, hxne⟩
  · intro n hn
    unfold create_new_action_notification at hn
    rcases List.mem_map.mp hn with ⟨adm, hadm, rfl⟩
    rcases List.mem_filter.mp hadm with ⟨hadm2, hne⟩
    rcases List.mem_filter.mp hadm2 with ⟨hmem, helig⟩
    simp only [Bool.and_eq_true, beq_iff_eq] at helig
    simp only [bne_iff_ne, ne_eq] at hne
    exact ⟨rfl, rfl, rfl, adm, hmem, helig.1, helig.2, hne, rfl⟩
  · intro h
    simp [newActionMessage, h]
  · intro h
    simp [newActionMessage, Nat.not_lt.mpr h]

/-- C6 witness: with the table `[sampleAuthor, sampleAdmin]`, creating
`sampleAction` (authored by `sampleAuthor`) gives the validated admin
`sampleAdmin` exactly one Notification. -/
theorem new_action_notifies_validated_admins_witness :
    (create_new_action_notification [sampleAuthor, sampleAdmin] sampleAction).countP
        (fun n => n.destinataire == sampleAdmin.id)
      = if sampleAdmin.role = "admin" ∧ sampleAdmin.is_validated = true
            ∧ sampleAdmin.id ≠ sampleAction.auteur.id
        then 1 else 0 :=
  (new_action_notifies_validated_admins [sampleAuthor, sampleAdmin] sampleAction
    (by decide)).1 sampleAdmin (by decide)

end PvApp








